import Mathlib

/-!
Verification of the inertial dead-reckoning core of the Controls-Project
repository (`src/components/DRModule.jsx` and `src/components/PathVisualizer.jsx`).

The JavaScript source is shallowly embedded over the real numbers: JS
floating-point values become `ℝ`, the JS values `NaN`/`undefined`/`null`
that the code can receive in sensor event fields are modelled by the
`JSVal` type, and the JS coercion `v || 0` is the function `orZero`.
The JS remainder operator `%` (sign of the dividend, truncated division)
is `jsMod`, and `Math.atan2 y x` is `atan2` via the complex argument.
React state plus the mirroring refs of `DRModule.jsx` collapse to the
explicit state records `HeadingState` and `MotionState`; each sensor
callback becomes a pure state-transition function.
-/

open Real

noncomputable section

namespace DRModule

/-- A JavaScript value as it can appear in a sensor event field:
a finite number, `NaN`, or a missing value (`undefined`/`null`). -/
inductive JSVal where
  | num (r : ℝ)
  | nan
  | undef

/-- The JS coercion `v || 0` as applied to acceleration components in
`handleDeviceMotion` (`acc.x || 0`): `NaN`, `undefined` and `null` are
falsy and map to `0`; a number maps to itself (`0 || 0` is `0`). -/
def orZero : JSVal → ℝ
  | JSVal.num r => r
  | JSVal.nan => 0
  | JSVal.undef => 0

/-- Truncation toward zero, as used by the JS `%` operator. -/
def jsTrunc (q : ℝ) : ℤ :=
  if 0 ≤ q then ⌊q⌋ else ⌈q⌉

/-- The JS remainder operator `a % b` on numbers: `a - b * trunc (a / b)`. -/
def jsMod (a b : ℝ) : ℝ :=
  a - b * jsTrunc (a / b)

/-- The JS function `Math.atan2 y x`, modelled by the argument of the complex number
`x + i y` (both lie in `(-π, π]` and agree on all inputs). -/
def atan2 (y x : ℝ) : ℝ :=
  Complex.arg ⟨x, y⟩

/-- A 2D vector, used for velocity, position, path points and the
acceleration bias of `DRModule.jsx`. -/
structure Vec2 where
  x : ℝ
  y : ℝ

/-- An orientation event as read by `handleDeviceOrientation`:
`alpha` is the value of `event.alpha ?? event.webkitCompassHeading`,
`webkitCompassPresent` is `event.webkitCompassHeading !== undefined`,
and `screenAngle` is `window.screen.orientation.angle || 0` when a
screen-orientation object is available (`none` otherwise). -/
structure OrientationEvent where
  alpha : JSVal
  beta : JSVal
  gamma : JSVal
  webkitCompassPresent : Bool
  screenAngle : Option ℝ

/-- The heading-estimator state of `DRModule.jsx`: the `heading` React
state (initially `0`) and `compassFilterRef.current.lastValue`
(the filter coefficient `alpha` is the constant `0.2`). -/
structure HeadingState where
  heading : ℝ
  filterLast : Option ℝ

/-- The initial heading state of `DRModule.jsx`
(`useState(0)` and `lastValue: null`). -/
def initialHeadingState : HeadingState :=
  ⟨0, none⟩

/-- The tilt-compensation step of `handleDeviceOrientation`
(lines 71-89 of `DRModule.jsx`): if `|beta| > 5` or `|gamma| > 5`, the
heading is recomputed via `atan2` of trigonometric projections of the
azimuth and renormalized with `(· + 360) % 360`; otherwise the raw
azimuth is used unmodified. -/
def tiltCompensate (alpha beta gamma : ℝ) : ℝ :=
  if 5 < |beta| ∨ 5 < |gamma| then
    let betaRad := beta * (π / 180)
    let gammaRad := gamma * (π / 180)
    let cosB := Real.cos betaRad
    let sinB := Real.sin betaRad
    let cosG := Real.cos gammaRad
    let sinG := Real.sin gammaRad
    let raw :=
      atan2
        (sinG * cosB * Real.cos (alpha * π / 180) +
          sinB * Real.sin (alpha * π / 180))
        (cosG * Real.cos (alpha * π / 180)) * (180 / π)
    jsMod (raw + 360) 360
  else alpha

/-- The low-pass filter step of `handleDeviceOrientation`
(lines 91-101): the first sample initializes the filter state directly,
later samples are smoothed as `alpha * new + (1 - alpha) * last`.
Returns the value that is both stored in `lastValue` and used as the
heading going into platform normalization. -/
def filterStep (lastValue : Option ℝ) (alphaCoef h : ℝ) : ℝ :=
  match lastValue with
  | none => h
  | some prev => alphaCoef * h + (1 - alphaCoef) * prev

/-- The platform normalization of `handleDeviceOrientation`
(lines 103-109): a webkit compass heading is inverted as `360 - h`;
otherwise, when a screen-orientation angle is available, it is added
modulo 360 (JS `%`); otherwise the value passes through. -/
def platformNormalize (webkit : Bool) (screenAngle : Option ℝ) (h : ℝ) : ℝ :=
  if webkit then 360 - h
  else
    match screenAngle with
    | some s => jsMod (h + s) 360
    | none => h

/-- The callback `handleDeviceOrientation` of `DRModule.jsx` (lines 56-121) as a
state transition: a sample is accepted only when all of alpha, beta and
gamma are numbers that are not `NaN`; an accepted sample is
tilt-compensated, low-pass filtered, platform-normalized, and stored as
the new heading (the filter keeps the pre-normalization value).  The
advisory `isCalibrating` signal does not affect `HeadingState` and is
not modelled. -/
def handleDeviceOrientation (st : HeadingState) (e : OrientationEvent) :
    HeadingState :=
  match e.alpha, e.beta, e.gamma with
  | JSVal.num a, JSVal.num b, JSVal.num g =>
    let comp := tiltCompensate a b g
    let filtered := filterStep st.filterLast 0.2 comp
    let normalized := platformNormalize e.webkitCompassPresent e.screenAngle filtered
    ⟨normalized, some filtered⟩
  | _, _, _ => st

/-- A motion event as read by `handleDeviceMotion`: the
`event.acceleration` object (possibly `null`) with its `x`/`y`
components, and the event timestamp in milliseconds. -/
structure MotionEvent where
  acceleration : Option (JSVal × JSVal)
  timeStamp : ℝ

/-- The motion-integrator state of `DRModule.jsx`: velocity, position
and path (React state mirrored in `velRef`/`posRef`/`pathRef`),
`lastTimestampRef`, `stationaryCountRef` and `accelBiasRef`. -/
structure MotionState where
  velocity : Vec2
  position : Vec2
  path : List Vec2
  lastTimestamp : Option ℝ
  stationaryCount : ℕ
  accelBias : Vec2

/-- The initial motion state of `DRModule.jsx`: zero velocity and
position, path seeded with the origin, no timestamp baseline, zero
stationary count and zero bias. -/
def initialMotionState : MotionState :=
  ⟨⟨0, 0⟩, ⟨0, 0⟩, [⟨0, 0⟩], none, 0, ⟨0, 0⟩⟩

/-- The deadzone of `handleDeviceMotion` (lines 182-185): a
bias-corrected component is kept only when its absolute value exceeds
`0.05`, and replaced by `0` otherwise. -/
def deadzoneApply (v : ℝ) : ℝ :=
  if 0.05 < |v| then v else 0

/-- The world-frame rotation of `handleDeviceMotion` (lines 187-190):
the device-frame acceleration `(ax, ay)` rotated by the current heading
(degrees converted to radians). -/
def worldAccel (heading ax ay : ℝ) : ℝ × ℝ :=
  let headingRad := heading * (π / 180)
  (ax * Real.cos headingRad + ay * Real.sin headingRad,
   -ax * Real.sin headingRad + ay * Real.cos headingRad)

/-- The stationary branch of `handleDeviceMotion` (lines 170-176):
the acceleration bias is smoothed toward the raw reading with weight
`0.2`, velocity is forced to exactly `{0, 0}`, and integration is
skipped (position and path untouched).  `newCount` is the already
updated stationary counter and `newTs` the already advanced timestamp
baseline. -/
def stationaryStep (st : MotionState) (axRaw ayRaw : ℝ) (newCount : ℕ)
    (newTs : ℝ) : MotionState :=
  { st with
    lastTimestamp := some newTs
    stationaryCount := newCount
    accelBias :=
      ⟨st.accelBias.x * 0.8 + axRaw * 0.2,
       st.accelBias.y * 0.8 + ayRaw * 0.2⟩
    velocity := ⟨0, 0⟩ }

/-- The integration branch of `handleDeviceMotion` (lines 178-211):
bias correction, deadzone, world-frame rotation, damped velocity
integration with damping `1.0`, semi-implicit position integration and
path append. -/
def integrationStep (st : MotionState) (heading deltaTime axRaw ayRaw : ℝ)
    (newCount : ℕ) (newTs : ℝ) : MotionState :=
  let axUnbiased := axRaw - st.accelBias.x
  let ayUnbiased := ayRaw - st.accelBias.y
  let ax := deadzoneApply axUnbiased
  let ay := deadzoneApply ayUnbiased
  let world := worldAccel heading ax ay
  let newVelX :=
    (st.velocity.x + world.1 * deltaTime) * Real.exp (-(1 : ℝ) * deltaTime)
  let newVelY :=
    (st.velocity.y + world.2 * deltaTime) * Real.exp (-(1 : ℝ) * deltaTime)
  let newPosX := st.position.x + newVelX * deltaTime
  let newPosY := st.position.y + newVelY * deltaTime
  { st with
    lastTimestamp := some newTs
    stationaryCount := newCount
    velocity := ⟨newVelX, newVelY⟩
    position := ⟨newPosX, newPosY⟩
    path := st.path ++ [⟨newPosX, newPosY⟩] }

/-- The callback `handleDeviceMotion` of `DRModule.jsx` (lines 124-212) as a state
transition, given the current heading (the code reads
`headingRef.current || 0`; the coercion only matters for `NaN`, which a
heading produced by `handleDeviceOrientation` never is, so the heading
is passed as a real number).  A `null` acceleration object returns
early; the first sample seeds the timestamp baseline; a delta time that
is not positive or is below 1 ms returns without touching any state
(including the baseline); otherwise the baseline advances, stationary
detection runs on the raw 2D magnitude, and either the stationary
branch or the integration branch executes. -/
def handleDeviceMotion (st : MotionState) (heading : ℝ) (e : MotionEvent) :
    MotionState :=
  match e.acceleration with
  | none => st
  | some acc =>
    match st.lastTimestamp with
    | none => { st with lastTimestamp := some e.timeStamp }
    | some last =>
      let deltaTime := (e.timeStamp - last) / 1000
      if deltaTime ≤ 0 ∨ deltaTime < 0.001 then st
      else
        let axRaw := orZero acc.1
        let ayRaw := orZero acc.2
        let accMag2D := Real.sqrt (axRaw ^ 2 + ayRaw ^ 2)
        let newCount :=
          if accMag2D < 0.12 then st.stationaryCount + 1 else 0
        if 6 ≤ newCount then
          stationaryStep st axRaw ayRaw newCount e.timeStamp
        else
          integrationStep st heading deltaTime axRaw ayRaw newCount
            e.timeStamp

/-- A sequence of motion events processed in arrival order with a fixed
heading, as the single-threaded event loop delivers them to
`handleDeviceMotion`. -/
def runMotion (st : MotionState) (heading : ℝ) (events : List MotionEvent) :
    MotionState :=
  events.foldl (fun s e => handleDeviceMotion s heading e) st

/-- The reset operation `clearPath` of `DRModule.jsx` (lines 263-268): the reset operation
zeroes velocity and position, re-seeds the path with the origin point
and clears the timestamp baseline; `accelBiasRef` and
`stationaryCountRef` are not touched. -/
def clearPath (st : MotionState) : MotionState :=
  { st with
    velocity := ⟨0, 0⟩
    position := ⟨0, 0⟩
    path := [⟨0, 0⟩]
    lastTimestamp := none }

end DRModule

namespace PathVisualizer

open DRModule

/-- A geographic fix as delivered by the geolocation callback of
`DRModule.jsx` and consumed by `PathVisualizer.jsx`. -/
structure GeoFix where
  latitude : ℝ
  longitude : ℝ
  accuracy : ℝ
  timestamp : ℝ

/-- The DR-path projection of `PathVisualizer.jsx` (lines 51-73): with
no GPS anchor or fewer than 2 path points the projected trace is empty;
otherwise each path point `{x, y}` (meters) maps to
`(originLat + y / 111320, originLon + x / (111320 * cos originLatRad))`. -/
def projectPath (path : List Vec2) (gps : Option GeoFix) : List (ℝ × ℝ) :=
  match gps with
  | none => []
  | some g =>
    if path.length < 2 then []
    else
      let metersPerLatDegree : ℝ := 111320
      let metersPerLonDegree : ℝ := 111320 * Real.cos (g.latitude * π / 180)
      path.map fun p =>
        (g.latitude + p.y / metersPerLatDegree,
         g.longitude + p.x / metersPerLonDegree)

/-- The flat-Earth distance used by the ground-truth dedup of
`PathVisualizer.jsx` (lines 90-100), with the longitude scale's cosine
taken at the already-stored point's latitude. -/
def flatDistance (stored newPoint : ℝ × ℝ) : ℝ :=
  Real.sqrt
    (((stored.1 - newPoint.1) * 111320) ^ 2 +
      ((stored.2 - newPoint.2) * 111320 *
        Real.cos (stored.1 * π / 180)) ^ 2)

open Classical in
/-- The ground-truth trace update of `PathVisualizer.jsx` (lines
83-109): the incoming fix's coordinates are appended unless some
already-stored point lies within 0.5 m of them by `flatDistance`, in
which case the trace is returned unchanged. -/
def ingestGroundTruth (prev : List (ℝ × ℝ)) (fix : GeoFix) : List (ℝ × ℝ) :=
  let newPoint := (fix.latitude, fix.longitude)
  if ∃ p ∈ prev, flatDistance p newPoint < 0.5 then prev
  else prev ++ [newPoint]

end PathVisualizer

namespace DRModule

/-- A motion sample carrying numeric acceleration components whose raw
2D magnitude is below the stationary threshold `0.12`. -/
def QuietSample (e : MotionEvent) : Prop :=
  ∃ ax ay : ℝ, e.acceleration = some (JSVal.num ax, JSVal.num ay) ∧
    Real.sqrt (ax ^ 2 + ay ^ 2) < 0.12

/-- Timestamps of a list of motion events are spaced at least 1 ms
apart, starting at least 1 ms after the baseline `t0`, so that every
event in the list passes the delta-time guard of
`handleDeviceMotion`. -/
def SpacedFrom : ℝ → List MotionEvent → Prop
  | _, [] => True
  | t0, e :: rest => t0 + 1 ≤ e.timeStamp ∧ SpacedFrom e.timeStamp rest

lemma jsMod_nonneg {a : ℝ} (ha : 0 ≤ a) : 0 ≤ jsMod a 360 := by
  have hq : 0 ≤ a / 360 := by positivity
  have hf : (↑⌊a / 360⌋ : ℝ) ≤ a / 360 := Int.floor_le _
  simp only [jsMod, jsTrunc, if_pos hq]
  linarith

lemma jsMod_lt {a : ℝ} (ha : 0 ≤ a) : jsMod a 360 < 360 := by
  have hq : 0 ≤ a / 360 := by positivity
  have hf : a / 360 < ↑⌊a / 360⌋ + 1 := Int.lt_floor_add_one _
  simp only [jsMod, jsTrunc, if_pos hq]
  linarith

lemma atan2_gt_neg_pi (y x : ℝ) : -π < atan2 y x :=
  Complex.neg_pi_lt_arg _

lemma jsMod_deg_nonneg_lt {r : ℝ} (hr : -π < r) :
    0 ≤ jsMod (r * (180 / π) + 360) 360 ∧
      jsMod (r * (180 / π) + 360) 360 < 360 := by
  have hpi : (0 : ℝ) < π := Real.pi_pos
  have hscale : (0 : ℝ) < 180 / π := by positivity
  have h1 : -π * (180 / π) < r * (180 / π) :=
    mul_lt_mul_of_pos_right hr hscale
  have h2 : -π * (180 / π) = -180 := by
    field_simp
    ring
  have hnn : 0 ≤ r * (180 / π) + 360 := by
    rw [h2] at h1
    linarith
  exact ⟨jsMod_nonneg hnn, jsMod_lt hnn⟩

lemma tiltCompensate_nonneg_lt {a : ℝ} (b g : ℝ) (h0 : 0 ≤ a)
    (h1 : a < 360) :
    0 ≤ tiltCompensate a b g ∧ tiltCompensate a b g < 360 := by
  unfold tiltCompensate
  by_cases htilt : 5 < |b| ∨ 5 < |g|
  · simp only [if_pos htilt]
    exact jsMod_deg_nonneg_lt (atan2_gt_neg_pi _ _)
  · simp only [if_neg htilt]
    exact ⟨h0, h1⟩

lemma handleDeviceMotion_reject (st : MotionState) (heading : ℝ)
    (e : MotionEvent) (last : ℝ)
    (hts : st.lastTimestamp = some last)
    (hdt : (e.timeStamp - last) / 1000 < 0.001) :
    handleDeviceMotion st heading e = st := by
  unfold handleDeviceMotion
  cases hacc : e.acceleration with
  | none => rfl
  | some acc =>
    rw [hts]
    simp only
    rw [if_pos (Or.inr hdt)]

lemma handleDeviceMotion_accepted (st : MotionState) (heading : ℝ)
    (e : MotionEvent) (last : ℝ) (jx jy : JSVal)
    (hts : st.lastTimestamp = some last)
    (hacc : e.acceleration = some (jx, jy))
    (hdt : 0.001 ≤ (e.timeStamp - last) / 1000) :
    handleDeviceMotion st heading e =
      (if 6 ≤ (if Real.sqrt (orZero jx ^ 2 + orZero jy ^ 2) < 0.12
               then st.stationaryCount + 1 else 0)
       then stationaryStep st (orZero jx) (orZero jy)
              (if Real.sqrt (orZero jx ^ 2 + orZero jy ^ 2) < 0.12
               then st.stationaryCount + 1 else 0) e.timeStamp
       else integrationStep st heading ((e.timeStamp - last) / 1000)
              (orZero jx) (orZero jy)
              (if Real.sqrt (orZero jx ^ 2 + orZero jy ^ 2) < 0.12
               then st.stationaryCount + 1 else 0) e.timeStamp) := by
  have hguard :
      ¬ ((e.timeStamp - last) / 1000 ≤ 0 ∨
          (e.timeStamp - last) / 1000 < 0.001) := by
    push_neg
    constructor <;> linarith
  unfold handleDeviceMotion
  rw [hacc, hts]
  simp only
  rw [if_neg hguard]

lemma handleDeviceMotion_stationary (st : MotionState) (heading : ℝ)
    (e : MotionEvent) (last : ℝ) (jx jy : JSVal)
    (hts : st.lastTimestamp = some last)
    (hacc : e.acceleration = some (jx, jy))
    (hdt : 0.001 ≤ (e.timeStamp - last) / 1000)
    (hmag : Real.sqrt (orZero jx ^ 2 + orZero jy ^ 2) < 0.12)
    (hcount : 5 ≤ st.stationaryCount) :
    handleDeviceMotion st heading e =
      stationaryStep st (orZero jx) (orZero jy) (st.stationaryCount + 1)
        e.timeStamp := by
  rw [handleDeviceMotion_accepted st heading e last jx jy hts hacc hdt]
  rw [if_pos hmag, if_pos (by omega : 6 ≤ st.stationaryCount + 1)]

lemma handleDeviceMotion_integrate (st : MotionState) (heading : ℝ)
    (e : MotionEvent) (last : ℝ) (jx jy : JSVal)
    (hts : st.lastTimestamp = some last)
    (hacc : e.acceleration = some (jx, jy))
    (hdt : 0.001 ≤ (e.timeStamp - last) / 1000)
    (hcnt : ¬ 6 ≤ (if Real.sqrt (orZero jx ^ 2 + orZero jy ^ 2) < 0.12
        then st.stationaryCount + 1 else 0)) :
    handleDeviceMotion st heading e =
      integrationStep st heading ((e.timeStamp - last) / 1000)
        (orZero jx) (orZero jy)
        (if Real.sqrt (orZero jx ^ 2 + orZero jy ^ 2) < 0.12
         then st.stationaryCount + 1 else 0) e.timeStamp := by
  rw [handleDeviceMotion_accepted st heading e last jx jy hts hacc hdt]
  rw [if_neg hcnt]

lemma handleDeviceMotion_quiet_count_ts (st : MotionState) (heading : ℝ)
    (e : MotionEvent) (last : ℝ)
    (hts : st.lastTimestamp = some last)
    (hq : QuietSample e)
    (hdt : 0.001 ≤ (e.timeStamp - last) / 1000) :
    (handleDeviceMotion st heading e).stationaryCount
        = st.stationaryCount + 1 ∧
      (handleDeviceMotion st heading e).lastTimestamp = some e.timeStamp := by
  obtain ⟨ax, ay, hacc, hmag⟩ := hq
  have hmag' : Real.sqrt (orZero (JSVal.num ax) ^ 2 +
      orZero (JSVal.num ay) ^ 2) < 0.12 := by
    simpa [orZero] using hmag
  by_cases hc : 6 ≤ st.stationaryCount + 1
  · rw [handleDeviceMotion_stationary st heading e last _ _ hts hacc hdt hmag'
      (by omega)]
    exact ⟨rfl, rfl⟩
  · rw [handleDeviceMotion_integrate st heading e last _ _ hts hacc hdt
      (by rw [if_pos hmag']; exact hc)]
    rw [if_pos hmag']
    exact ⟨rfl, rfl⟩

lemma runMotion_quiet_invariant (heading : ℝ) :
    ∀ (events tail : List MotionEvent) (st : MotionState) (t0 : ℝ),
      st.lastTimestamp = some t0 →
      SpacedFrom t0 (events ++ tail) →
      (∀ e ∈ events, QuietSample e) →
      (runMotion st heading events).stationaryCount
          = st.stationaryCount + events.length ∧
        ∃ t1, (runMotion st heading events).lastTimestamp = some t1 ∧
          SpacedFrom t1 tail := by
  intro events
  induction events with
  | nil =>
    intro tail st t0 hts hsp _
    exact ⟨rfl, t0, hts, hsp⟩
  | cons e evs ih =>
    intro tail st t0 hts hsp hq
    obtain ⟨hgap, hsp'⟩ := hsp
    have hdt : 0.001 ≤ (e.timeStamp - t0) / 1000 := by linarith
    have hstep := handleDeviceMotion_quiet_count_ts st heading e t0 hts
      (hq e (List.mem_cons_self e evs)) hdt
    have hrun : runMotion st heading (e :: evs)
        = runMotion (handleDeviceMotion st heading e) heading evs := rfl
    obtain ⟨hcnt, t1, hlt1, hsp''⟩ := ih tail (handleDeviceMotion st heading e)
      e.timeStamp hstep.2 hsp' (fun s hs => hq s (List.mem_cons_of_mem e hs))
    refine ⟨?_, t1, by rw [hrun] at *; exact hlt1, hsp''⟩
    rw [hrun, hcnt, hstep.1]
    simp [List.length_cons]
    omega

/-- C6: for every state, `clearPath` (the reset operation) sets velocity to
`{0,0}`, position to `{0,0}`, the path to the single origin point, and clears
the timestamp baseline, while leaving `accelBias` and `stationaryCount`
unchanged. -/
theorem clearPath_reset_semantics (st : MotionState) :
    (clearPath st).velocity = ⟨0, 0⟩ ∧
    (clearPath st).position = ⟨0, 0⟩ ∧
    (clearPath st).path = [⟨0, 0⟩] ∧
    (clearPath st).lastTimestamp = none ∧
    (clearPath st).accelBias = st.accelBias ∧
    (clearPath st).stationaryCount = st.stationaryCount :=
  ⟨rfl, rfl, rfl, rfl, rfl, rfl⟩

/-- C10: for every heading angle and every device-frame acceleration vector
`(ax, ay)`, the world-frame rotation of `handleDeviceMotion` preserves the 2D
Euclidean norm: `worldAx ^ 2 + worldAy ^ 2 = ax ^ 2 + ay ^ 2`. -/
theorem worldAccel_norm_preserving (heading ax ay : ℝ) :
    (worldAccel heading ax ay).1 ^ 2 + (worldAccel heading ax ay).2 ^ 2
      = ax ^ 2 + ay ^ 2 := by
  unfold worldAccel
  simp only
  linear_combination
    (ax ^ 2 + ay ^ 2) * Real.sin_sq_add_cos_sq (heading * (π / 180))

/-- C3 (amended): a motion sample whose elapsed time since the last accepted
sample is not strictly positive or is below 1 ms mutates nothing at all: the
state, including the stored timestamp baseline, is returned unchanged (the
baseline advances only on accepted samples and on the first seeding sample). -/
theorem subms_sample_noop (st : MotionState) (heading : ℝ) (e : MotionEvent)
    (last : ℝ) (hts : st.lastTimestamp = some last)
    (hdt : (e.timeStamp - last) / 1000 < 0.001) :
    handleDeviceMotion st heading e = st :=
  handleDeviceMotion_reject st heading e last hts hdt

/-- Witness for `subms_sample_noop`: a sample 0.5 ms after the baseline is a
complete no-op. -/
theorem subms_sample_noop_witness :
    handleDeviceMotion
        ⟨⟨0, 0⟩, ⟨0, 0⟩, [⟨0, 0⟩], some 1000, 0, ⟨0, 0⟩⟩ 0
        ⟨some (JSVal.num 1, JSVal.num 1), 1000.5⟩
      = ⟨⟨0, 0⟩, ⟨0, 0⟩, [⟨0, 0⟩], some 1000, 0, ⟨0, 0⟩⟩ :=
  subms_sample_noop ⟨⟨0, 0⟩, ⟨0, 0⟩, [⟨0, 0⟩], some 1000, 0, ⟨0, 0⟩⟩ 0
    ⟨some (JSVal.num 1, JSVal.num 1), 1000.5⟩ 1000 rfl (by norm_num)

/-- C3 counterexample: on a sub-millisecond sample (baseline 1000 ms, sample
at 1000.5 ms) the code returns before `lastTimestampRef.current = now`, so
the stored baseline stays at 1000 instead of advancing to 1000.5 as the claim
states. -/
theorem subms_sample_keeps_timestamp :
    (handleDeviceMotion
        ⟨⟨0, 0⟩, ⟨0, 0⟩, [⟨0, 0⟩], some 1000, 0, ⟨0, 0⟩⟩ 0
        ⟨some (JSVal.num 1, JSVal.num 1), 1000.5⟩).lastTimestamp
      = some (1000 : ℝ) ∧ (1000 : ℝ) ≠ 1000.5 := by
  constructor
  · rw [handleDeviceMotion_reject _ _ _ 1000 rfl (by norm_num)]
  · norm_num

/-- C2 (amended): a motion event with a missing (`null`) acceleration object
is dropped with no state mutation, but a `NaN` or missing acceleration
*component* is coerced to 0 by `|| 0` rather than causing the sample to be
discarded: processing such a sample is identical to processing the sample
with that component replaced by the number 0, and may therefore mutate
velocity, position and path. -/
theorem malformed_sample_amended :
    (∀ (st : MotionState) (heading : ℝ) (e : MotionEvent),
        e.acceleration = none → handleDeviceMotion st heading e = st) ∧
    (∀ (st : MotionState) (heading : ℝ) (jx jy : JSVal) (ts : ℝ),
        handleDeviceMotion st heading ⟨some (jx, jy), ts⟩
          = handleDeviceMotion st heading
              ⟨some (JSVal.num (orZero jx), JSVal.num (orZero jy)), ts⟩) := by
  constructor
  · intro st heading e hacc
    unfold handleDeviceMotion
    rw [hacc]
  · intro st heading jx jy ts
    cases jx <;> cases jy <;> rfl

/-- Witness for `malformed_sample_amended`: a `null` acceleration object is
dropped, and a `NaN` x-component is processed exactly as the number 0. -/
theorem malformed_sample_amended_witness :
    handleDeviceMotion
        ⟨⟨0, 0⟩, ⟨0, 0⟩, [⟨0, 0⟩], some 0, 0, ⟨0, 0⟩⟩ 0 ⟨none, 1000⟩
      = ⟨⟨0, 0⟩, ⟨0, 0⟩, [⟨0, 0⟩], some 0, 0, ⟨0, 0⟩⟩ ∧
    handleDeviceMotion
        ⟨⟨0, 0⟩, ⟨0, 0⟩, [⟨0, 0⟩], some 0, 0, ⟨0, 0⟩⟩ 0
        ⟨some (JSVal.nan, JSVal.num 5), 1000⟩
      = handleDeviceMotion
          ⟨⟨0, 0⟩, ⟨0, 0⟩, [⟨0, 0⟩], some 0, 0, ⟨0, 0⟩⟩ 0
          ⟨some (JSVal.num 0, JSVal.num 5), 1000⟩ :=
  ⟨malformed_sample_amended.1
      ⟨⟨0, 0⟩, ⟨0, 0⟩, [⟨0, 0⟩], some 0, 0, ⟨0, 0⟩⟩ 0 ⟨none, 1000⟩ rfl,
   malformed_sample_amended.2
      ⟨⟨0, 0⟩, ⟨0, 0⟩, [⟨0, 0⟩], some 0, 0, ⟨0, 0⟩⟩ 0 JSVal.nan
      (JSVal.num 5) 1000⟩

/-- C2 counterexample: a motion sample with a `NaN` x-acceleration component
(a non-finite component, hence malformed in the claim's sense) is *not*
discarded: with baseline 0 ms, a sample at 1000 ms with acceleration
`(NaN, 5)` changes the velocity (its y-component becomes `5 * exp (-1)`),
contradicting the claim that velocity is unchanged. -/
theorem nan_sample_mutates_state :
    (handleDeviceMotion
        ⟨⟨0, 0⟩, ⟨0, 0⟩, [⟨0, 0⟩], some 0, 0, ⟨0, 0⟩⟩ 0
        ⟨some (JSVal.nan, JSVal.num 5), 1000⟩).velocity
      ≠ (⟨0, 0⟩ : Vec2) := by
  have hsqrt : Real.sqrt ((0 : ℝ) ^ 2 + 5 ^ 2) = 5 := by
    rw [show ((0 : ℝ) ^ 2 + 5 ^ 2) = 5 ^ 2 by norm_num]
    exact Real.sqrt_sq (by norm_num)
  rw [handleDeviceMotion_integrate _ 0 _ 0 JSVal.nan (JSVal.num 5) rfl rfl
    (by norm_num)
    (by
      rw [show orZero JSVal.nan = (0 : ℝ) from rfl,
        show orZero (JSVal.num 5) = (5 : ℝ) from rfl, hsqrt,
        if_neg (by norm_num : ¬ (5 : ℝ) < 0.12)]
      omega)]
  rw [show orZero JSVal.nan = (0 : ℝ) from rfl,
    show orZero (JSVal.num 5) = (5 : ℝ) from rfl, hsqrt,
    if_neg (by norm_num : ¬ (5 : ℝ) < 0.12)]
  have hdz0 : deadzoneApply ((0 : ℝ) - 0) = 0 := by
    unfold deadzoneApply
    rw [if_neg (by norm_num : ¬ (0.05 : ℝ) < |(0 : ℝ) - 0|)]
  have hdz5 : deadzoneApply ((5 : ℝ) - 0) = 5 := by
    unfold deadzoneApply
    rw [if_pos (by norm_num : (0.05 : ℝ) < |(5 : ℝ) - 0|)]
    norm_num
  simp only [integrationStep, hdz0, hdz5, worldAccel, Vec2.mk.injEq, ne_eq,
    not_and]
  intro _
  have hexp : (0 : ℝ) < Real.exp (-(1 : ℝ) * ((1000 - 0) / 1000)) :=
    Real.exp_pos _
  have hcos : Real.cos ((0 : ℝ) * (π / 180)) = 1 := by
    rw [zero_mul, Real.cos_zero]
  have hsin : Real.sin ((0 : ℝ) * (π / 180)) = 0 := by
    rw [zero_mul, Real.sin_zero]
  rw [hcos, hsin]
  intro hy
  nlinarith [hexp, hy]

/-- C5 (amended): for every accepted, integrated motion sample on which the
post-deadzone world-frame acceleration is zero (both bias-corrected
components fall inside the deadzone) and whose velocity is nonzero, the
velocity magnitude strictly decreases, since `v' = v * exp (-dt)`; when the
velocity is already `{0,0}` it stays `{0,0}` (no strict decrease). -/
theorem velocity_decay_amended (st : MotionState) (heading : ℝ)
    (e : MotionEvent) (last ax ay : ℝ)
    (hts : st.lastTimestamp = some last)
    (hacc : e.acceleration = some (JSVal.num ax, JSVal.num ay))
    (hdt : 0.001 ≤ (e.timeStamp - last) / 1000)
    (hcnt : ¬ 6 ≤ (if Real.sqrt (ax ^ 2 + ay ^ 2) < 0.12
        then st.stationaryCount + 1 else 0))
    (hdzx : |ax - st.accelBias.x| ≤ 0.05)
    (hdzy : |ay - st.accelBias.y| ≤ 0.05)
    (hv : st.velocity.x ≠ 0 ∨ st.velocity.y ≠ 0) :
    Real.sqrt ((handleDeviceMotion st heading e).velocity.x ^ 2 +
        (handleDeviceMotion st heading e).velocity.y ^ 2)
      < Real.sqrt (st.velocity.x ^ 2 + st.velocity.y ^ 2) := by
  have hcnt' : ¬ 6 ≤ (if Real.sqrt (orZero (JSVal.num ax) ^ 2 +
      orZero (JSVal.num ay) ^ 2) < 0.12
      then st.stationaryCount + 1 else 0) := by
    simpa [orZero] using hcnt
  rw [handleDeviceMotion_integrate st heading e last _ _ hts hacc hdt hcnt']
  have hdza : deadzoneApply (orZero (JSVal.num ax) - st.accelBias.x) = 0 := by
    simp only [orZero]
    unfold deadzoneApply
    rw [if_neg (not_lt.mpr hdzx)]
  have hdzb : deadzoneApply (orZero (JSVal.num ay) - st.accelBias.y) = 0 := by
    simp only [orZero]
    unfold deadzoneApply
    rw [if_neg (not_lt.mpr hdzy)]
  simp only [integrationStep, hdza, hdzb, worldAccel, zero_mul, add_zero,
    zero_add, mul_zero, neg_zero]
  have hE0 : 0 < Real.exp (-(1 : ℝ) * ((e.timeStamp - last) / 1000)) :=
    Real.exp_pos _
  have hE1 : Real.exp (-(1 : ℝ) * ((e.timeStamp - last) / 1000)) < 1 := by
    rw [Real.exp_lt_one_iff]
    nlinarith
  have hS : 0 < st.velocity.x ^ 2 + st.velocity.y ^ 2 := by
    rcases hv with h | h
    · nlinarith [abs_pos.mpr h, sq_abs st.velocity.x,
        sq_nonneg st.velocity.y]
    · nlinarith [abs_pos.mpr h, sq_abs st.velocity.y,
        sq_nonneg st.velocity.x]
  have hLHS : Real.sqrt
      ((st.velocity.x * Real.exp (-(1 : ℝ) * ((e.timeStamp - last) / 1000))) ^ 2 +
        (st.velocity.y * Real.exp (-(1 : ℝ) * ((e.timeStamp - last) / 1000))) ^ 2)
      = Real.sqrt (st.velocity.x ^ 2 + st.velocity.y ^ 2) *
          Real.exp (-(1 : ℝ) * ((e.timeStamp - last) / 1000)) := by
    rw [show (st.velocity.x * Real.exp (-(1 : ℝ) * ((e.timeStamp - last) / 1000))) ^ 2 +
        (st.velocity.y * Real.exp (-(1 : ℝ) * ((e.timeStamp - last) / 1000))) ^ 2
        = (st.velocity.x ^ 2 + st.velocity.y ^ 2) *
            Real.exp (-(1 : ℝ) * ((e.timeStamp - last) / 1000)) ^ 2 by ring]
    rw [Real.sqrt_mul (le_of_lt hS), Real.sqrt_sq (le_of_lt hE0)]
  rw [hLHS]
  exact mul_lt_of_lt_one_right (Real.sqrt_pos.mpr hS) hE1

/-- Witness for `velocity_decay_amended`: with nonzero velocity `(1, 0)`,
raw acceleration `(0, 0)` (inside the deadzone, zero bias) and a 1 s delta,
the velocity magnitude strictly decreases. -/
theorem velocity_decay_amended_witness :
    Real.sqrt ((handleDeviceMotion
        ⟨⟨1, 0⟩, ⟨0, 0⟩, [⟨0, 0⟩], some 0, 0, ⟨0, 0⟩⟩ 0
        ⟨some (JSVal.num 0, JSVal.num 0), 1000⟩).velocity.x ^ 2 +
      (handleDeviceMotion
        ⟨⟨1, 0⟩, ⟨0, 0⟩, [⟨0, 0⟩], some 0, 0, ⟨0, 0⟩⟩ 0
        ⟨some (JSVal.num 0, JSVal.num 0), 1000⟩).velocity.y ^ 2)
      < Real.sqrt (((⟨⟨1, 0⟩, ⟨0, 0⟩, [⟨0, 0⟩], some 0, 0, ⟨0, 0⟩⟩ :
          MotionState)).velocity.x ^ 2 +
        ((⟨⟨1, 0⟩, ⟨0, 0⟩, [⟨0, 0⟩], some 0, 0, ⟨0, 0⟩⟩ :
          MotionState)).velocity.y ^ 2) := by
  have hsq0 : Real.sqrt ((0 : ℝ) ^ 2 + 0 ^ 2) = 0 := by
    rw [show ((0 : ℝ) ^ 2 + 0 ^ 2) = 0 by norm_num, Real.sqrt_zero]
  exact velocity_decay_amended
    ⟨⟨1, 0⟩, ⟨0, 0⟩, [⟨0, 0⟩], some 0, 0, ⟨0, 0⟩⟩ 0
    ⟨some (JSVal.num 0, JSVal.num 0), 1000⟩ 0 0 0 rfl rfl (by norm_num)
    (by rw [hsq0, if_pos (by norm_num : (0 : ℝ) < 0.12)]; simp)
    (by norm_num) (by norm_num) (Or.inl (by norm_num))

/-- C5 counterexample: a sample that is accepted and integrated (raw
acceleration `(0.2, 0)`, bias `(0.2, 0)`, so the post-deadzone world
acceleration is zero and `dt = 1 > 0`) but starts from velocity `{0,0}`:
the velocity stays `{0,0}` and its magnitude does not strictly decrease,
contradicting the claim's unconditional `|v'| < |v|`. -/
theorem zero_velocity_no_strict_decay :
    (handleDeviceMotion
        ⟨⟨0, 0⟩, ⟨0, 0⟩, [⟨0, 0⟩], some 0, 0, ⟨0.2, 0⟩⟩ 0
        ⟨some (JSVal.num 0.2, JSVal.num 0), 1000⟩).velocity = ⟨0, 0⟩ ∧
    ¬ Real.sqrt ((handleDeviceMotion
          ⟨⟨0, 0⟩, ⟨0, 0⟩, [⟨0, 0⟩], some 0, 0, ⟨0.2, 0⟩⟩ 0
          ⟨some (JSVal.num 0.2, JSVal.num 0), 1000⟩).velocity.x ^ 2 +
        (handleDeviceMotion
          ⟨⟨0, 0⟩, ⟨0, 0⟩, [⟨0, 0⟩], some 0, 0, ⟨0.2, 0⟩⟩ 0
          ⟨some (JSVal.num 0.2, JSVal.num 0), 1000⟩).velocity.y ^ 2)
      < Real.sqrt (((⟨⟨0, 0⟩, ⟨0, 0⟩, [⟨0, 0⟩], some 0, 0, ⟨0.2, 0⟩⟩ :
          MotionState)).velocity.x ^ 2 +
        ((⟨⟨0, 0⟩, ⟨0, 0⟩, [⟨0, 0⟩], some 0, 0, ⟨0.2, 0⟩⟩ :
          MotionState)).velocity.y ^ 2) := by
  have hsqrt : Real.sqrt ((0.2 : ℝ) ^ 2 + 0 ^ 2) = 0.2 := by
    rw [show ((0.2 : ℝ) ^ 2 + 0 ^ 2) = (0.2 : ℝ) ^ 2 by norm_num]
    exact Real.sqrt_sq (by norm_num)
  have key : (handleDeviceMotion
      ⟨⟨0, 0⟩, ⟨0, 0⟩, [⟨0, 0⟩], some 0, 0, ⟨0.2, 0⟩⟩ 0
      ⟨some (JSVal.num 0.2, JSVal.num 0), 1000⟩).velocity = ⟨0, 0⟩ := by
    rw [handleDeviceMotion_integrate _ 0 _ 0 (JSVal.num 0.2) (JSVal.num 0)
      rfl rfl (by norm_num)
      (by
        rw [show orZero (JSVal.num 0.2) = (0.2 : ℝ) from rfl,
          show orZero (JSVal.num 0) = (0 : ℝ) from rfl, hsqrt,
          if_neg (by norm_num : ¬ (0.2 : ℝ) < 0.12)]
        omega)]
    have hdza : deadzoneApply ((0.2 : ℝ) - 0.2) = 0 := by
      unfold deadzoneApply
      rw [if_neg (by norm_num : ¬ (0.05 : ℝ) < |(0.2 : ℝ) - 0.2|)]
    have hdzb : deadzoneApply ((0 : ℝ) - 0) = 0 := by
      unfold deadzoneApply
      rw [if_neg (by norm_num : ¬ (0.05 : ℝ) < |(0 : ℝ) - 0|)]
    simp only [integrationStep, orZero, hdza, hdzb, worldAccel, zero_mul,
      add_zero, zero_add, mul_zero, neg_zero, Vec2.mk.injEq]
  refine ⟨key, ?_⟩
  rw [key]
  simp only
  norm_num

/-- C4: in a run of consecutive accepted samples whose raw 2D acceleration
magnitude is below 0.12 m/s², every sample from the 6th onward (here: the
sample following a quiet prefix of length at least 5) takes the stationary
branch: velocity is set to exactly `{0,0}`, position and path are unchanged
(integration skipped), and each acceleration-bias component is smoothed
toward the raw reading with weight 0.2. -/
theorem stationary_run_effects (st : MotionState) (heading t0 : ℝ)
    (pre : List MotionEvent) (e : MotionEvent) (ax ay : ℝ)
    (hts : st.lastTimestamp = some t0)
    (hsp : SpacedFrom t0 (pre ++ [e]))
    (hqpre : ∀ s ∈ pre, QuietSample s)
    (hlen : 5 ≤ pre.length)
    (hacc : e.acceleration = some (JSVal.num ax, JSVal.num ay))
    (hmag : Real.sqrt (ax ^ 2 + ay ^ 2) < 0.12) :
    (runMotion st heading (pre ++ [e])).velocity = ⟨0, 0⟩ ∧
    (runMotion st heading (pre ++ [e])).position
        = (runMotion st heading pre).position ∧
    (runMotion st heading (pre ++ [e])).path
        = (runMotion st heading pre).path ∧
    (runMotion st heading (pre ++ [e])).accelBias
        = ⟨(runMotion st heading pre).accelBias.x * 0.8 + ax * 0.2,
           (runMotion st heading pre).accelBias.y * 0.8 + ay * 0.2⟩ := by
  obtain ⟨hcnt, t1, hlt1, hsp1⟩ :=
    runMotion_quiet_invariant heading pre [e] st t0 hts hsp hqpre
  obtain ⟨hgap, -⟩ := hsp1
  have hdt : 0.001 ≤ (e.timeStamp - t1) / 1000 := by linarith
  have hcount5 : 5 ≤ (runMotion st heading pre).stationaryCount := by
    omega
  have hstep := handleDeviceMotion_stationary (runMotion st heading pre)
    heading e t1 (JSVal.num ax) (JSVal.num ay) hlt1 hacc hdt
    (by simpa [orZero] using hmag) hcount5
  have hrun : runMotion st heading (pre ++ [e])
      = handleDeviceMotion (runMotion st heading pre) heading e := by
    unfold runMotion
    rw [List.foldl_append]
    rfl
  rw [hrun, hstep]
  exact ⟨rfl, rfl, rfl, rfl⟩

/-- Witness for `stationary_run_effects`: six consecutive zero-acceleration
samples spaced 1 s apart; after the 6th the velocity is exactly `{0,0}`. -/
theorem stationary_run_effects_witness :
    (runMotion ⟨⟨0, 0⟩, ⟨0, 0⟩, [⟨0, 0⟩], some 0, 0, ⟨0, 0⟩⟩ 0
        ([⟨some (JSVal.num 0, JSVal.num 0), 1000⟩,
          ⟨some (JSVal.num 0, JSVal.num 0), 2000⟩,
          ⟨some (JSVal.num 0, JSVal.num 0), 3000⟩,
          ⟨some (JSVal.num 0, JSVal.num 0), 4000⟩,
          ⟨some (JSVal.num 0, JSVal.num 0), 5000⟩] ++
          [⟨some (JSVal.num 0, JSVal.num 0), 6000⟩])).velocity
      = ⟨0, 0⟩ := by
  have hq : Real.sqrt ((0 : ℝ) ^ 2 + 0 ^ 2) < 0.12 := by
    rw [show ((0 : ℝ) ^ 2 + 0 ^ 2) = 0 by norm_num, Real.sqrt_zero]
    norm_num
  exact (stationary_run_effects
    ⟨⟨0, 0⟩, ⟨0, 0⟩, [⟨0, 0⟩], some 0, 0, ⟨0, 0⟩⟩ 0 0
    [⟨some (JSVal.num 0, JSVal.num 0), 1000⟩,
     ⟨some (JSVal.num 0, JSVal.num 0), 2000⟩,
     ⟨some (JSVal.num 0, JSVal.num 0), 3000⟩,
     ⟨some (JSVal.num 0, JSVal.num 0), 4000⟩,
     ⟨some (JSVal.num 0, JSVal.num 0), 5000⟩]
    ⟨some (JSVal.num 0, JSVal.num 0), 6000⟩ 0 0 rfl
    (by refine ⟨by norm_num, by norm_num, by norm_num, by norm_num,
      by norm_num, by norm_num, trivial⟩)
    (by
      intro s hs
      simp only [List.mem_cons, List.not_mem_nil, or_false] at hs
      rcases hs with h | h | h | h | h <;> exact ⟨0, 0, by rw [h], hq⟩)
    (by norm_num) rfl hq).1

/-- C9: the deadzone of `handleDeviceMotion` maps every bias-corrected
component with absolute value at most 0.05 to exactly 0 and passes every
component with absolute value above 0.05 through unmodified; consequently,
on an accepted, non-stationary sample whose bias-corrected x-component (resp.
y-component) falls inside the deadzone, the new velocity is computed from a
world-frame acceleration in which that device-axis component is literally 0,
so it contributes nothing to that step's velocity change. -/
theorem deadzone_spec (st : MotionState) (heading : ℝ) (e : MotionEvent)
    (last ax ay : ℝ)
    (hts : st.lastTimestamp = some last)
    (hacc : e.acceleration = some (JSVal.num ax, JSVal.num ay))
    (hdt : 0.001 ≤ (e.timeStamp - last) / 1000)
    (hcnt : ¬ 6 ≤ (if Real.sqrt (ax ^ 2 + ay ^ 2) < 0.12
        then st.stationaryCount + 1 else 0)) :
    (∀ v : ℝ, |v| ≤ 0.05 → deadzoneApply v = 0) ∧
    (∀ v : ℝ, 0.05 < |v| → deadzoneApply v = v) ∧
    (|ax - st.accelBias.x| ≤ 0.05 →
      (handleDeviceMotion st heading e).velocity =
        ⟨(st.velocity.x +
            (worldAccel heading 0 (deadzoneApply (ay - st.accelBias.y))).1 *
              ((e.timeStamp - last) / 1000)) *
            Real.exp (-(1 : ℝ) * ((e.timeStamp - last) / 1000)),
         (st.velocity.y +
            (worldAccel heading 0 (deadzoneApply (ay - st.accelBias.y))).2 *
              ((e.timeStamp - last) / 1000)) *
            Real.exp (-(1 : ℝ) * ((e.timeStamp - last) / 1000))⟩) ∧
    (|ay - st.accelBias.y| ≤ 0.05 →
      (handleDeviceMotion st heading e).velocity =
        ⟨(st.velocity.x +
            (worldAccel heading (deadzoneApply (ax - st.accelBias.x)) 0).1 *
              ((e.timeStamp - last) / 1000)) *
            Real.exp (-(1 : ℝ) * ((e.timeStamp - last) / 1000)),
         (st.velocity.y +
            (worldAccel heading (deadzoneApply (ax - st.accelBias.x)) 0).2 *
              ((e.timeStamp - last) / 1000)) *
            Real.exp (-(1 : ℝ) * ((e.timeStamp - last) / 1000))⟩) := by
  have hzero : ∀ v : ℝ, |v| ≤ 0.05 → deadzoneApply v = 0 := by
    intro v hv
    unfold deadzoneApply
    rw [if_neg (not_lt.mpr hv)]
  have hpass : ∀ v : ℝ, 0.05 < |v| → deadzoneApply v = v := by
    intro v hv
    unfold deadzoneApply
    rw [if_pos hv]
  have hcnt' : ¬ 6 ≤ (if Real.sqrt (orZero (JSVal.num ax) ^ 2 +
      orZero (JSVal.num ay) ^ 2) < 0.12
      then st.stationaryCount + 1 else 0) := by
    simpa [orZero] using hcnt
  have hint := handleDeviceMotion_integrate st heading e last _ _ hts hacc
    hdt hcnt'
  refine ⟨hzero, hpass, ?_, ?_⟩
  · intro hdzx
    rw [hint]
    simp only [integrationStep, orZero, hzero _ hdzx]
  · intro hdzy
    rw [hint]
    simp only [integrationStep, orZero, hzero _ hdzy]

/-- Witness for `deadzone_spec`: with zero bias, raw acceleration
`(0, 0.2)` (x-component inside the deadzone) and a 1 s delta, the deadzone
facts hold at `v = 0.03` and `v = 0.2`. -/
theorem deadzone_spec_witness :
    deadzoneApply 0.03 = 0 ∧ deadzoneApply 0.2 = 0.2 := by
  have hsq : Real.sqrt ((0 : ℝ) ^ 2 + 0.2 ^ 2) = 0.2 := by
    rw [show ((0 : ℝ) ^ 2 + 0.2 ^ 2) = (0.2 : ℝ) ^ 2 by norm_num]
    exact Real.sqrt_sq (by norm_num)
  have h := deadzone_spec
    ⟨⟨0, 0⟩, ⟨0, 0⟩, [⟨0, 0⟩], some 0, 0, ⟨0, 0⟩⟩ 0
    ⟨some (JSVal.num 0, JSVal.num 0.2), 1000⟩ 0 0 0.2 rfl rfl (by norm_num)
    (by rw [hsq, if_neg (by norm_num : ¬ (0.2 : ℝ) < 0.12)]; omega)
  exact ⟨h.1 0.03 (by rw [abs_of_nonneg (by norm_num : (0 : ℝ) ≤ 0.03)]; norm_num),
    h.2.1 0.2 (by rw [abs_of_nonneg (by norm_num : (0 : ℝ) ≤ 0.2)]; norm_num)⟩

/-- C1 counterexample: the orientation sample with azimuth 0, pitch 0, roll 0
(all present and numeric, hence accepted) on a webkit-compass platform drives
the stored heading to exactly 360 (`360 - 0`), which is outside `[0, 360)`. -/
theorem webkit_heading_escapes_range :
    (handleDeviceOrientation ⟨0, none⟩
        ⟨JSVal.num 0, JSVal.num 0, JSVal.num 0, true, none⟩).heading = 360 ∧
    ¬ ((handleDeviceOrientation ⟨0, none⟩
        ⟨JSVal.num 0, JSVal.num 0, JSVal.num 0, true, none⟩).heading < 360) := by
  have h : (handleDeviceOrientation ⟨0, none⟩
      ⟨JSVal.num 0, JSVal.num 0, JSVal.num 0, true, none⟩).heading = 360 := by
    unfold handleDeviceOrientation
    simp only
    unfold tiltCompensate
    rw [if_neg (by norm_num : ¬ ((5 : ℝ) < |(0 : ℝ)| ∨ (5 : ℝ) < |(0 : ℝ)|))]
    unfold filterStep platformNormalize
    norm_num
  exact ⟨h, by rw [h]; norm_num⟩

/-- C1 (amended): for every accepted orientation sample whose azimuth lies
in `[0, 360)`, with a filter state that is either unset or in `[0, 360)` and
a nonnegative screen-rotation angle when one is present, the stored heading
lies in the closed interval `[0, 360]`: the screen-rotation branch and the
pass-through branch keep it in `[0, 360)`, while the webkit inversion
`360 - heading` can reach exactly 360 (when the filtered heading is 0), so
the claimed half-open bound `[0, 360)` must be widened to `[0, 360]`. -/
theorem heading_bounded_amended (st : HeadingState) (e : OrientationEvent)
    (a b g : ℝ)
    (ha : e.alpha = JSVal.num a) (hb : e.beta = JSVal.num b)
    (hg : e.gamma = JSVal.num g)
    (haz0 : 0 ≤ a) (haz1 : a < 360)
    (hfl : st.filterLast = none ∨
      ∃ v, st.filterLast = some v ∧ 0 ≤ v ∧ v < 360)
    (hsc : ∀ s, e.screenAngle = some s → 0 ≤ s) :
    0 ≤ (handleDeviceOrientation st e).heading ∧
      (handleDeviceOrientation st e).heading ≤ 360 := by
  obtain ⟨ea, eb, eg, ew, es⟩ := e
  simp only at ha hb hg hsc
  subst ha hb hg
  unfold handleDeviceOrientation
  simp only
  obtain ⟨hc0, hc1⟩ := tiltCompensate_nonneg_lt b g haz0 haz1
  have hf : 0 ≤ filterStep st.filterLast 0.2 (tiltCompensate a b g) ∧
      filterStep st.filterLast 0.2 (tiltCompensate a b g) < 360 := by
    rcases hfl with h | ⟨v, hv, hv0, hv1⟩
    · rw [h]
      exact ⟨hc0, hc1⟩
    · rw [hv]
      unfold filterStep
      constructor
      · nlinarith
      · nlinarith
  unfold platformNormalize
  cases ew with
  | true =>
    simp only [if_pos]
    constructor
    · linarith [hf.2]
    · linarith [hf.1]
  | false =>
    simp only [Bool.false_eq_true, if_neg]
    cases es with
    | none => exact ⟨hf.1, le_of_lt hf.2⟩
    | some s =>
      have hs0 : 0 ≤ s := hsc s rfl
      have hnn : 0 ≤ filterStep st.filterLast 0.2 (tiltCompensate a b g) + s := by
        linarith [hf.1]
      exact ⟨jsMod_nonneg hnn, le_of_lt (jsMod_lt hnn)⟩

/-- Witness for `heading_bounded_amended`: a level sample with azimuth 10 on
a non-webkit platform with no screen-orientation object keeps the heading in
`[0, 360]`. -/
theorem heading_bounded_amended_witness :
    0 ≤ (handleDeviceOrientation ⟨0, none⟩
        ⟨JSVal.num 10, JSVal.num 0, JSVal.num 0, false, none⟩).heading ∧
      (handleDeviceOrientation ⟨0, none⟩
        ⟨JSVal.num 10, JSVal.num 0, JSVal.num 0, false, none⟩).heading ≤ 360 :=
  heading_bounded_amended ⟨0, none⟩
    ⟨JSVal.num 10, JSVal.num 0, JSVal.num 0, false, none⟩ 10 0 0 rfl rfl rfl
    (by norm_num) (by norm_num) (Or.inl rfl) (fun s hs => nomatch hs)

end DRModule

namespace PathVisualizer

open DRModule

lemma flatDistance_eval (la lo la' lo' d : ℝ)
    (h : ((la - la') * 111320) ^ 2 +
        ((lo - lo') * 111320 * Real.cos (la * π / 180)) ^ 2 = d ^ 2)
    (hd : 0 ≤ d) :
    flatDistance (la, lo) (la', lo') = d := by
  unfold flatDistance
  simp only
  rw [h]
  exact Real.sqrt_sq hd

/-- C7: `projectPath` returns the empty trace whenever the path has fewer
than 2 points or the anchor fix is absent; otherwise every path point maps
to `latitude = anchorLat + y / 111320` and
`longitude = anchorLon + x / (111320 * cos anchorLatRad)`; in particular,
with anchor `(0, 0)`, the point `(x = 0, y = 111320)` projects to
`(1, 0)` within `1e-4` degrees. -/
theorem projectPath_spec :
    (∀ path : List Vec2, projectPath path none = []) ∧
    (∀ (path : List Vec2) (g : GeoFix), path.length < 2 →
        projectPath path (some g) = []) ∧
    (∀ (path : List Vec2) (g : GeoFix), 2 ≤ path.length →
        projectPath path (some g) =
          path.map fun p =>
            (g.latitude + p.y / 111320,
             g.longitude + p.x / (111320 * Real.cos (g.latitude * π / 180)))) ∧
    (∃ lat lon : ℝ,
        (projectPath [⟨0, 0⟩, ⟨0, 111320⟩] (some ⟨0, 0, 0, 0⟩)).get? 1
          = some (lat, lon) ∧
        |lat - 1| ≤ 1 / 10000 ∧ |lon - 0| ≤ 1 / 10000) := by
  refine ⟨fun path => rfl, ?_, ?_, ?_⟩
  · intro path g h
    simp only [projectPath]
    rw [if_pos h]
  · intro path g h
    simp only [projectPath]
    rw [if_neg (not_lt.mpr h)]
  · refine ⟨1, 0, ?_, by norm_num, by norm_num⟩
    simp only [projectPath]
    rw [if_neg (by norm_num :
      ¬ ([(⟨0, 0⟩ : Vec2), ⟨0, 111320⟩].length < 2))]
    simp only [List.map, List.get?, Real.cos_zero, zero_mul]
    norm_num

/-- C8: `ingestGroundTruth` appends the incoming fix's coordinates exactly
when its flat-Earth distance to every already-stored point is at least
0.5 m; a fix within 0.5 m of some stored point leaves the trace unchanged;
concretely, two fixes 1 m apart are both stored, while a third fix 0.1 m
from a stored point is discarded. -/
theorem ingestGroundTruth_spec :
    (∀ (prev : List (ℝ × ℝ)) (f : GeoFix),
        (∃ p ∈ prev, flatDistance p (f.latitude, f.longitude) < 0.5) →
        ingestGroundTruth prev f = prev) ∧
    (∀ (prev : List (ℝ × ℝ)) (f : GeoFix),
        (∀ p ∈ prev, 0.5 ≤ flatDistance p (f.latitude, f.longitude)) →
        ingestGroundTruth prev f = prev ++ [(f.latitude, f.longitude)]) ∧
    ingestGroundTruth (ingestGroundTruth [] ⟨0, 0, 0, 0⟩)
        ⟨1 / 111320, 0, 0, 0⟩ = [(0, 0), (1 / 111320, 0)] ∧
    ingestGroundTruth [(0, 0), (1 / 111320, 0)] ⟨0.1 / 111320, 0, 0, 0⟩
      = [(0, 0), (1 / 111320, 0)] := by
  have hd1 : flatDistance ((0 : ℝ), (0 : ℝ)) ((1 : ℝ) / 111320, 0) = 1 :=
    flatDistance_eval 0 0 (1 / 111320) 0 1 (by norm_num) (by norm_num)
  have hd01 : flatDistance ((0 : ℝ), (0 : ℝ)) ((0.1 : ℝ) / 111320, 0) = 0.1 :=
    flatDistance_eval 0 0 (0.1 / 111320) 0 0.1 (by norm_num) (by norm_num)
  have hempty : ingestGroundTruth [] (⟨0, 0, 0, 0⟩ : GeoFix) = [((0 : ℝ), (0 : ℝ))] := by
    unfold ingestGroundTruth
    simp
  refine ⟨?_, ?_, ?_, ?_⟩
  · intro prev f h
    unfold ingestGroundTruth
    rw [if_pos h]
  · intro prev f h
    unfold ingestGroundTruth
    rw [if_neg (by push_neg; exact h)]
  · rw [hempty]
    unfold ingestGroundTruth
    rw [if_neg (by
      rintro ⟨p, hp, hlt⟩
      simp only [List.mem_singleton] at hp
      subst hp
      rw [show ((⟨1 / 111320, 0, 0, 0⟩ : GeoFix).latitude,
        (⟨1 / 111320, 0, 0, 0⟩ : GeoFix).longitude) = ((1 : ℝ) / 111320, (0 : ℝ))
        from rfl, hd1] at hlt
      norm_num at hlt)]
    rfl
  · unfold ingestGroundTruth
    rw [if_pos ⟨((0 : ℝ), (0 : ℝ)), by simp, by
      rw [show ((⟨0.1 / 111320, 0, 0, 0⟩ : GeoFix).latitude,
        (⟨0.1 / 111320, 0, 0, 0⟩ : GeoFix).longitude)
        = ((0.1 : ℝ) / 111320, (0 : ℝ)) from rfl, hd01]
      norm_num⟩]

/-- Witness for `projectPath_spec`: a one-point path projects to the empty
trace. -/
theorem projectPath_spec_witness :
    projectPath [(⟨0, 0⟩ : Vec2)] (some (⟨0, 0, 0, 0⟩ : GeoFix)) = [] :=
  projectPath_spec.2.1 [⟨0, 0⟩] ⟨0, 0, 0, 0⟩ (by norm_num)

/-- Witness for `ingestGroundTruth_spec`: the first fix is always appended
to the empty trace. -/
theorem ingestGroundTruth_spec_witness :
    ingestGroundTruth [] (⟨0, 0, 0, 0⟩ : GeoFix) = [((0 : ℝ), (0 : ℝ))] :=
  ingestGroundTruth_spec.2.1 [] ⟨0, 0, 0, 0⟩ (by simp)

end PathVisualizer

end
